import Mathlib

/-!
Verification of the Sharpener-Gyro firmware core: the angle-tracking
algorithm (`reader.py`), the DNS catch-all responder and the HTTP
response writer / route dispatch (`main.py`).

Floating-point arithmetic of the source is modelled over the real
numbers; `math.atan2 y x` is modelled as the argument of the complex
number `x + y*I`, which has the same range `(-pi, pi]` and the same
special values on the axes. Sensor I/O is modelled as a function from
the attempt index to an optional reading (`none` = the bus raised
`OSError` on that attempt).
-/

namespace SharpenerGyro

/-! ## Vector helpers (reader.py lines 32-45) -/

/-- A 3-component vector, as the Python 3-tuple of floats. -/
abbrev Vec3 : Type := ℝ × ℝ × ℝ

/-- The magnitude `m = math.sqrt(x*x + y*y + z*z)` computed inside
`_vec_norm`. -/
noncomputable def vec_mag (v : Vec3) : ℝ :=
  Real.sqrt (v.1 * v.1 + v.2.1 * v.2.1 + v.2.2 * v.2.2)

/-- `_vec_norm`: normalize a vector; a zero-magnitude vector maps to the
zero vector rather than dividing by zero. -/
noncomputable def vec_norm (v : Vec3) : Vec3 :=
  if vec_mag v = 0 then (0, 0, 0)
  else (v.1 / vec_mag v, v.2.1 / vec_mag v, v.2.2 / vec_mag v)

/-- `_vec_dot`. -/
def vec_dot (a b : Vec3) : ℝ :=
  a.1 * b.1 + a.2.1 * b.2.1 + a.2.2 * b.2.2

/-- `_vec_cross`. -/
def vec_cross (a b : Vec3) : Vec3 :=
  (a.2.1 * b.2.2 - a.2.2 * b.2.1,
   a.2.2 * b.1 - a.1 * b.2.2,
   a.1 * b.2.1 - a.2.1 * b.1)

/-! ## Signed angle (reader.py lines 47-58) -/

/-- `math.atan2 y x`, modelled as the argument of `x + y*I`:
range `(-pi, pi]`, `atan2 0 0 = 0`. -/
noncomputable def atan2 (y x : ℝ) : ℝ :=
  Complex.arg ((x : ℂ) + (y : ℂ) * Complex.I)

/-- `math.degrees`. -/
noncomputable def degrees (a : ℝ) : ℝ := a * (180 / Real.pi)

/-- The `s = dot(axis_unit, cross(v0u, v1u))` intermediate of
`_signed_angle_about_axis`. -/
noncomputable def angle_s (v0 v1 axis_unit : Vec3) : ℝ :=
  vec_dot axis_unit (vec_cross (vec_norm v0) (vec_norm v1))

/-- The `c = dot(v0u, v1u)` intermediate of `_signed_angle_about_axis`. -/
noncomputable def angle_c (v0 v1 : Vec3) : ℝ :=
  vec_dot (vec_norm v0) (vec_norm v1)

/-- `math.degrees(math.atan2(s, c))`, the angle before the endpoint
unification. -/
noncomputable def raw_angle (v0 v1 axis_unit : Vec3) : ℝ :=
  degrees (atan2 (angle_s v0 v1 axis_unit) (angle_c v0 v1))

/-- `_signed_angle_about_axis`: the raw angle, with an exact `+180`
output unified to `-180`. -/
noncomputable def signed_angle_about_axis (v0 v1 axis_unit : Vec3) : ℝ :=
  let ang := raw_angle v0 v1 axis_unit
  if ang = 180 then -180 else ang

/-! ## Retry wrapper (reader.py lines 60-66) -/

/-- `_safe_read`, with the sensor modelled as `reads : ℕ → Option Vec3`
(`reads i = none` means attempt `i` raised `OSError`). `safe_read reads
i n` tries attempts `i, i+1, ...` up to `n` times and returns the first
success, or `none` after exhaustion. -/
def safe_read (reads : ℕ → Option Vec3) : ℕ → ℕ → Option Vec3
  | _, 0 => none
  | i, n + 1 =>
    match reads i with
    | some v => some v
    | none => safe_read reads (i + 1) n

/-- `_safe_read` with its default `retries=3`. -/
def safe_read3 (reads : ℕ → Option Vec3) : Option Vec3 :=
  safe_read reads 0 3

/-! ## AngleTracker (reader.py lines 69-136) -/

/-- The mutable state of an `AngleTracker` (the I2C/MPU handles are
external and carry no tracker state). -/
structure AngleTracker where
  axis : Vec3
  angle_mode : String
  g_ref : Vec3
  last_delta : ℝ
  calibration_delay_ms : ℕ

/-- `_set_axis`: resolve the mode string (empty string falls back to
"PITCH", comparison is case-insensitive via upper-casing) to the
normalized axis vector and the canonical mode name. -/
noncomputable def set_axis (angle_mode : String) : Vec3 × String :=
  let mode := (if angle_mode = "" then "PITCH" else angle_mode).toUpper
  if mode = "ROLL" then (vec_norm (1, 0, 0), "ROLL")
  else (vec_norm (0, 1, 0), "PITCH")

/-- `AngleTracker.__init__`: axis from the mode, reference defaulted to
the unit Z vector, last delta 0. -/
noncomputable def AngleTracker.init (angle_mode : String)
    (calibration_delay_ms : ℕ) : AngleTracker :=
  { axis := (set_axis angle_mode).1
    angle_mode := (set_axis angle_mode).2
    g_ref := (0, 0, 1)
    last_delta := 0
    calibration_delay_ms := calibration_delay_ms }

/-- `AngleTracker.recalibrate`: read with bounded retries; on failure
return `false` with the state untouched, on success store the
normalized reading as reference and reset the last delta. -/
noncomputable def AngleTracker.recalibrate (st : AngleTracker)
    (reads : ℕ → Option Vec3) : Bool × AngleTracker :=
  match safe_read3 reads with
  | none => (false, st)
  | some g => (true, { st with g_ref := vec_norm g, last_delta := 0 })

/-- `AngleTracker.get_delta`: read with bounded retries; on failure
return `none` with the state untouched, on success compute the signed
angle from the reference to the reading about the axis and cache it. -/
noncomputable def AngleTracker.get_delta (st : AngleTracker)
    (reads : ℕ → Option Vec3) : Option ℝ × AngleTracker :=
  match safe_read3 reads with
  | none => (none, st)
  | some g_now =>
    let d := signed_angle_about_axis st.g_ref g_now st.axis
    (some d, { st with last_delta := d })

/-- `AngleTracker.get_last_delta`. -/
def AngleTracker.get_last_delta (st : AngleTracker) : ℝ :=
  st.last_delta

/-! ## DNS catch-all responder (main.py lines 66-104) -/

/-- The fixed answer record appended by `dns_catch_all`: compression
pointer `0xC00C` to the question name, type A, class IN, TTL 60,
RDLENGTH 4, then the answer address bytes. -/
def dns_answer (ip_bytes : List ℕ) : List ℕ :=
  [0xC0, 0x0C] ++ [0x00, 0x01] ++ [0x00, 0x01] ++
    [0x00, 0x00, 0x00, 0x3C] ++ [0x00, 0x04] ++ ip_bytes

/-- The packet `header + question + answer` built by `dns_catch_all` for
a datagram that passes the length check: transaction id echoed, flags
`0x8180`, question count echoed, answer count 1, authority/additional
counts 0, question section copied as-is, then the answer record. -/
def dns_payload (data ip_bytes : List ℕ) : List ℕ :=
  data.take 2 ++ [0x81, 0x80] ++ (data.drop 4).take 2 ++
    [0x00, 0x01] ++ [0x00, 0x00] ++ [0x00, 0x00] ++
    data.drop 12 ++ dns_answer ip_bytes

/-- The per-datagram behaviour of the `dns_catch_all` loop body: a
datagram shorter than the 12-byte DNS header is dropped (`none`, no
packet sent); otherwise the synthetic response is sent. -/
def dns_response (data ip_bytes : List ℕ) : Option (List ℕ) :=
  if data.length < 12 then none
  else some (dns_payload data ip_bytes)

/-! ## HTTP response writer and route dispatch (main.py lines 107-184) -/

/-- The reason-phrase table of `send_response` (default "OK"). -/
def reason_phrase (status : ℕ) : String :=
  if status = 200 then "OK"
  else if status = 204 then "No Content"
  else if status = 404 then "Not Found"
  else if status = 500 then "Internal Server Error"
  else "OK"

/-- `send_response`: returns the header block written first and the body
bytes written after it (empty when the body is empty or the status is
204). -/
def send_response (status : ℕ) (ctype body : String) : String × String :=
  let hdr := "HTTP/1.1 " ++ toString status ++ " " ++ reason_phrase status
    ++ "\r\nContent-Type: " ++ ctype
    ++ "\r\nContent-Length: " ++ toString body.length
    ++ "\r\nCache-Control: no-store\r\nConnection: close\r\n\r\n"
  (hdr, if body ≠ "" ∧ status ≠ 204 then body else "")

/-- The route dispatch of `handle_client` (main.py lines 162-184),
returning the `(status, content-type, body)` triple passed to
`send_response`. `delta` is the `tracker.get_delta()` outcome, `fmt`
renders it as the `+.2f` string, `recal_ok` is the `tracker.recalibrate()`
outcome and `index_html` the loaded portal page. -/
def route (method path : String) (delta : Option ℝ) (fmt : ℝ → String)
    (recal_ok : Bool) (index_html : String) : ℕ × String × String :=
  if method = "GET" ∧ (path = "/generate_204" ∨ path = "/gen_204") then
    (204, "text/plain; charset=utf-8", "")
  else if method = "GET" ∧
      (path = "/hotspot-detect.html" ∨ path = "/library/test/success.html") then
    (200, "text/html; charset=utf-8", "Success")
  else if method = "GET" ∧ (path = "/connecttest.txt" ∨ path = "/ncsi.txt") then
    (200, "text/plain; charset=utf-8",
      if path.endsWith "connecttest.txt" then "Microsoft Connect Test"
      else "Microsoft NCSI")
  else if method = "GET" ∧ (path = "/" ∨ path.startsWith "/index.html") then
    (200, "text/html; charset=utf-8", index_html)
  else if method = "GET" ∧ path = "/angle" then
    (200, "text/plain; charset=utf-8",
      match delta with
      | none => "--.--"
      | some d => fmt d)
  else if path = "/recalibrate" ∧ (method = "POST" ∨ method = "GET") then
    (200, "text/plain; charset=utf-8", if recal_ok then "OK" else "ERR")
  else
    (404, "text/plain; charset=utf-8", "Not found")

/-! ## Helper lemmas: the angle computation -/

lemma atan2_mem_Ioc (y x : ℝ) :
    -Real.pi < atan2 y x ∧ atan2 y x ≤ Real.pi := by
  have h := Complex.arg_mem_Ioc ((x : ℂ) + (y : ℂ) * Complex.I)
  exact ⟨h.1, h.2⟩

lemma coeff_pos : (0 : ℝ) < 180 / Real.pi :=
  div_pos (by norm_num) Real.pi_pos

lemma degrees_pi : degrees Real.pi = 180 := by
  unfold degrees
  field_simp

lemma degrees_lt_iff {a b : ℝ} : degrees a < degrees b ↔ a < b := by
  unfold degrees
  exact mul_lt_mul_right coeff_pos

lemma degrees_le_iff {a b : ℝ} : degrees a ≤ degrees b ↔ a ≤ b := by
  unfold degrees
  exact mul_le_mul_right coeff_pos

lemma degrees_inj {a b : ℝ} : degrees a = degrees b ↔ a = b := by
  unfold degrees
  exact mul_left_inj' (ne_of_gt coeff_pos)

lemma degrees_neg (a : ℝ) : degrees (-a) = -degrees a := by
  unfold degrees
  ring

lemma degrees_zero : degrees 0 = 0 := by
  unfold degrees
  ring

lemma raw_angle_mem (v0 v1 ax : Vec3) :
    -180 < raw_angle v0 v1 ax ∧ raw_angle v0 v1 ax ≤ 180 := by
  have h := atan2_mem_Ioc (angle_s v0 v1 ax) (angle_c v0 v1)
  constructor
  · have := degrees_lt_iff.mpr h.1
    rw [degrees_neg, degrees_pi] at this
    exact this
  · have := degrees_le_iff.mpr h.2
    rw [degrees_pi] at this
    exact this

lemma raw_angle_eq_180_iff (v0 v1 ax : Vec3) :
    raw_angle v0 v1 ax = 180 ↔
      atan2 (angle_s v0 v1 ax) (angle_c v0 v1) = Real.pi := by
  rw [raw_angle, ← degrees_pi, degrees_inj]

lemma atan2_zero_of_nonneg {c : ℝ} (hc : 0 ≤ c) : atan2 0 c = 0 := by
  unfold atan2
  rw [show ((c : ℂ) + (0 : ℝ) * Complex.I) = (c : ℂ) by push_cast; ring]
  exact Complex.arg_ofReal_of_nonneg hc

lemma atan2_zero_neg_one : atan2 0 (-1) = Real.pi := by
  unfold atan2
  rw [show (((-1 : ℝ) : ℂ) + ((0 : ℝ) : ℂ) * Complex.I) = -1 by push_cast; ring]
  exact Complex.arg_neg_one

lemma atan2_one_zero : atan2 1 0 = Real.pi / 2 := by
  unfold atan2
  rw [show (((0 : ℝ) : ℂ) + ((1 : ℝ) : ℂ) * Complex.I) = Complex.I by
    push_cast; ring]
  exact Complex.arg_I

lemma atan2_neg_one_zero : atan2 (-1) 0 = -(Real.pi / 2) := by
  unfold atan2
  rw [show (((0 : ℝ) : ℂ) + ((-1 : ℝ) : ℂ) * Complex.I) = -Complex.I by
    push_cast; ring]
  exact Complex.arg_neg_I

lemma atan2_neg_left {y x : ℝ} (h : atan2 y x ≠ Real.pi) :
    atan2 (-y) x = -atan2 y x := by
  unfold atan2 at *
  rw [show ((x : ℂ) + ((-y : ℝ) : ℂ) * Complex.I)
      = (starRingEnd ℂ) ((x : ℂ) + (y : ℂ) * Complex.I) by
    rw [map_add, map_mul, Complex.conj_ofReal, Complex.conj_ofReal,
      Complex.conj_I]
    push_cast
    ring]
  rw [Complex.arg_conj, if_neg h]

/-! ## Helper lemmas: vector normalization -/

lemma vec_mag_nonneg (v : Vec3) : 0 ≤ vec_mag v :=
  Real.sqrt_nonneg _

lemma vec_mag_zero : vec_mag (0, 0, 0) = 0 := by
  unfold vec_mag
  norm_num

lemma vec_norm_zero : vec_norm (0, 0, 0) = (0, 0, 0) := by
  unfold vec_norm
  rw [if_pos vec_mag_zero]

lemma vec_norm_of_mag_zero {v : Vec3} (h : vec_mag v = 0) :
    vec_norm v = (0, 0, 0) := by
  unfold vec_norm
  rw [if_pos h]

lemma vec_mag_mul_self (v : Vec3) :
    vec_mag v * vec_mag v = v.1 * v.1 + v.2.1 * v.2.1 + v.2.2 * v.2.2 :=
  Real.mul_self_sqrt
    (add_nonneg (add_nonneg (mul_self_nonneg _) (mul_self_nonneg _))
      (mul_self_nonneg _))

lemma vec_norm_of_mag_ne_zero {v : Vec3} (h : vec_mag v ≠ 0) :
    vec_norm v = (v.1 / vec_mag v, v.2.1 / vec_mag v, v.2.2 / vec_mag v) := by
  unfold vec_norm
  rw [if_neg h]

lemma vec_norm_mag_one {v : Vec3} (h : vec_mag v ≠ 0) :
    vec_mag (vec_norm v) = 1 := by
  have hm := vec_mag_mul_self v
  have harg : v.1 / vec_mag v * (v.1 / vec_mag v) +
      v.2.1 / vec_mag v * (v.2.1 / vec_mag v) +
      v.2.2 / vec_mag v * (v.2.2 / vec_mag v) = 1 := by
    field_simp
    linarith [hm]
  rw [vec_norm_of_mag_ne_zero h]
  show Real.sqrt (v.1 / vec_mag v * (v.1 / vec_mag v) +
      v.2.1 / vec_mag v * (v.2.1 / vec_mag v) +
      v.2.2 / vec_mag v * (v.2.2 / vec_mag v)) = 1
  rw [harg, Real.sqrt_one]

lemma vec_norm_idem (v : Vec3) : vec_norm (vec_norm v) = vec_norm v := by
  by_cases h : vec_mag v = 0
  · rw [vec_norm_of_mag_zero h, vec_norm_zero]
  · have h1 : vec_mag (vec_norm v) = 1 := vec_norm_mag_one h
    rw [vec_norm_of_mag_ne_zero (h1 ▸ one_ne_zero), h1]
    simp

lemma angle_s_swap (v0 v1 ax : Vec3) : angle_s v1 v0 ax = -angle_s v0 v1 ax := by
  unfold angle_s vec_dot vec_cross
  ring

lemma angle_c_swap (v0 v1 : Vec3) : angle_c v1 v0 = angle_c v0 v1 := by
  unfold angle_c vec_dot
  ring

lemma angle_s_norm_self (g ax : Vec3) : angle_s (vec_norm g) g ax = 0 := by
  unfold angle_s
  rw [vec_norm_idem]
  unfold vec_dot vec_cross
  ring

lemma angle_c_norm_self_nonneg (g : Vec3) : 0 ≤ angle_c (vec_norm g) g := by
  unfold angle_c
  rw [vec_norm_idem]
  unfold vec_dot
  exact add_nonneg (add_nonneg (mul_self_nonneg _) (mul_self_nonneg _))
    (mul_self_nonneg _)

lemma signed_angle_norm_self (g ax : Vec3) :
    signed_angle_about_axis (vec_norm g) g ax = 0 := by
  unfold signed_angle_about_axis raw_angle
  rw [angle_s_norm_self, atan2_zero_of_nonneg (angle_c_norm_self_nonneg g),
    degrees_zero]
  norm_num

lemma signed_angle_left_degenerate {v0 : Vec3} (v1 ax : Vec3)
    (h : vec_mag v0 = 0) : signed_angle_about_axis v0 v1 ax = 0 := by
  unfold signed_angle_about_axis raw_angle angle_s angle_c
  rw [vec_norm_of_mag_zero h]
  have hs : vec_dot ax (vec_cross (0, 0, 0) (vec_norm v1)) = 0 := by
    unfold vec_dot vec_cross
    norm_num
  have hc : vec_dot ((0, 0, 0) : Vec3) (vec_norm v1) = 0 := by
    unfold vec_dot
    norm_num
  rw [hs, hc, atan2_zero_of_nonneg le_rfl, degrees_zero]
  norm_num

lemma signed_angle_right_degenerate {v1 : Vec3} (v0 ax : Vec3)
    (h : vec_mag v1 = 0) : signed_angle_about_axis v0 v1 ax = 0 := by
  unfold signed_angle_about_axis raw_angle angle_s angle_c
  rw [vec_norm_of_mag_zero h]
  have hs : vec_dot ax (vec_cross (vec_norm v0) (0, 0, 0)) = 0 := by
    unfold vec_dot vec_cross
    norm_num
  have hc : vec_dot (vec_norm v0) ((0, 0, 0) : Vec3) = 0 := by
    unfold vec_dot
    norm_num
  rw [hs, hc, atan2_zero_of_nonneg le_rfl, degrees_zero]
  norm_num

/-! ## Helper lemmas: concrete evaluations -/

lemma degrees_pi_div_two : degrees (Real.pi / 2) = 90 := by
  unfold degrees
  field_simp
  ring

lemma vec_mag_e1 : vec_mag (1, 0, 0) = 1 := by
  unfold vec_mag
  rw [show ((1 : ℝ) * 1 + 0 * 0 + 0 * 0) = 1 by norm_num, Real.sqrt_one]

lemma vec_mag_neg_e1 : vec_mag (-1, 0, 0) = 1 := by
  unfold vec_mag
  rw [show ((-1 : ℝ) * (-1) + 0 * 0 + 0 * 0) = 1 by norm_num, Real.sqrt_one]

lemma vec_mag_e2 : vec_mag (0, 1, 0) = 1 := by
  unfold vec_mag
  rw [show ((0 : ℝ) * 0 + 1 * 1 + 0 * 0) = 1 by norm_num, Real.sqrt_one]

lemma vec_mag_e3 : vec_mag (0, 0, 1) = 1 := by
  unfold vec_mag
  rw [show ((0 : ℝ) * 0 + 0 * 0 + 1 * 1) = 1 by norm_num, Real.sqrt_one]

lemma vec_norm_e1 : vec_norm (1, 0, 0) = (1, 0, 0) := by
  rw [vec_norm_of_mag_ne_zero (by rw [vec_mag_e1]; exact one_ne_zero),
    vec_mag_e1]
  norm_num

lemma vec_norm_neg_e1 : vec_norm (-1, 0, 0) = (-1, 0, 0) := by
  rw [vec_norm_of_mag_ne_zero (by rw [vec_mag_neg_e1]; exact one_ne_zero),
    vec_mag_neg_e1]
  norm_num

lemma vec_norm_e2 : vec_norm (0, 1, 0) = (0, 1, 0) := by
  rw [vec_norm_of_mag_ne_zero (by rw [vec_mag_e2]; exact one_ne_zero),
    vec_mag_e2]
  norm_num

lemma signed_angle_e1_neg_e1 :
    signed_angle_about_axis (1, 0, 0) (-1, 0, 0) (0, 1, 0) = -180 := by
  unfold signed_angle_about_axis raw_angle angle_s angle_c
  rw [vec_norm_e1, vec_norm_neg_e1]
  have hs : vec_dot ((0, 1, 0) : Vec3) (vec_cross (1, 0, 0) (-1, 0, 0)) = 0 := by
    unfold vec_dot vec_cross
    norm_num
  have hc : vec_dot ((1, 0, 0) : Vec3) ((-1, 0, 0) : Vec3) = -1 := by
    unfold vec_dot
    norm_num
  rw [hs, hc, atan2_zero_neg_one, degrees_pi]
  norm_num

lemma signed_angle_neg_e1_e1 :
    signed_angle_about_axis (-1, 0, 0) (1, 0, 0) (0, 1, 0) = -180 := by
  unfold signed_angle_about_axis raw_angle angle_s angle_c
  rw [vec_norm_e1, vec_norm_neg_e1]
  have hs : vec_dot ((0, 1, 0) : Vec3) (vec_cross (-1, 0, 0) (1, 0, 0)) = 0 := by
    unfold vec_dot vec_cross
    norm_num
  have hc : vec_dot ((-1, 0, 0) : Vec3) ((1, 0, 0) : Vec3) = -1 := by
    unfold vec_dot
    norm_num
  rw [hs, hc, atan2_zero_neg_one, degrees_pi]
  norm_num

lemma signed_angle_e1_e2 :
    signed_angle_about_axis (1, 0, 0) (0, 1, 0) (0, 0, 1) = 90 := by
  unfold signed_angle_about_axis raw_angle angle_s angle_c
  rw [vec_norm_e1, vec_norm_e2]
  have hs : vec_dot ((0, 0, 1) : Vec3) (vec_cross (1, 0, 0) (0, 1, 0)) = 1 := by
    unfold vec_dot vec_cross
    norm_num
  have hc : vec_dot ((1, 0, 0) : Vec3) ((0, 1, 0) : Vec3) = 0 := by
    unfold vec_dot
    norm_num
  rw [hs, hc, atan2_one_zero, degrees_pi_div_two]
  norm_num

/-! ## Helper lemmas: the retry wrapper and the tracker -/

lemma safe_read_eq_none_iff (reads : ℕ → Option Vec3) :
    ∀ n i, safe_read reads i n = none ↔ ∀ j, j < n → reads (i + j) = none := by
  intro n
  induction n with
  | zero =>
    intro i
    simp [safe_read]
  | succ n ih =>
    intro i
    cases hr : reads i with
    | some v =>
      simp only [safe_read, hr]
      constructor
      · intro h
        exact Option.noConfusion h
      · intro h
        have h0 := h 0 (Nat.succ_pos n)
        rw [Nat.add_zero] at h0
        exact Option.noConfusion (hr.symm.trans h0)
    | none =>
      simp only [safe_read, hr]
      rw [ih (i + 1)]
      constructor
      · intro h j hj
        cases j with
        | zero =>
          rw [Nat.add_zero]
          exact hr
        | succ j =>
          have hjn := h j (by omega)
          rw [show i + (j + 1) = i + 1 + j by omega]
          exact hjn
      · intro h j hj
        rw [show i + 1 + j = i + (j + 1) by omega]
        exact h (j + 1) (by omega)

lemma safe_read3_eq_none_iff (reads : ℕ → Option Vec3) :
    safe_read3 reads = none ↔ ∀ i, i < 3 → reads i = none := by
  unfold safe_read3
  rw [safe_read_eq_none_iff]
  simp

lemma get_delta_fail {st : AngleTracker} {reads : ℕ → Option Vec3}
    (h : safe_read3 reads = none) : st.get_delta reads = (none, st) := by
  simp [AngleTracker.get_delta, h]

lemma get_delta_success {st : AngleTracker} {reads : ℕ → Option Vec3}
    {g : Vec3} (h : safe_read3 reads = some g) :
    st.get_delta reads = (some (signed_angle_about_axis st.g_ref g st.axis),
      { st with last_delta := signed_angle_about_axis st.g_ref g st.axis }) := by
  simp [AngleTracker.get_delta, h]

lemma recalibrate_fail {st : AngleTracker} {reads : ℕ → Option Vec3}
    (h : safe_read3 reads = none) : st.recalibrate reads = (false, st) := by
  simp [AngleTracker.recalibrate, h]

lemma recalibrate_success {st : AngleTracker} {reads : ℕ → Option Vec3}
    {g : Vec3} (h : safe_read3 reads = some g) :
    st.recalibrate reads =
      (true, { st with g_ref := vec_norm g, last_delta := 0 }) := by
  simp [AngleTracker.recalibrate, h]

/-! ## Claim theorems -/

/-- C1: for every pair of input vectors and unit axis, the angle computed
by `_signed_angle_about_axis` before the endpoint unification lies in
`(-180, 180]`; an output of exactly `+180` is normalized to `-180`; and
consequently the returned value lies in `[-180, 180)`. -/
theorem signed_angle_output_range (v0 v1 ax : Vec3) :
    (-180 < raw_angle v0 v1 ax ∧ raw_angle v0 v1 ax ≤ 180) ∧
    (raw_angle v0 v1 ax = 180 → signed_angle_about_axis v0 v1 ax = -180) ∧
    (-180 ≤ signed_angle_about_axis v0 v1 ax ∧
      signed_angle_about_axis v0 v1 ax < 180) := by
  refine ⟨raw_angle_mem v0 v1 ax, ?_, ?_⟩
  · intro h
    simp only [signed_angle_about_axis]
    rw [if_pos h]
  · simp only [signed_angle_about_axis]
    by_cases h : raw_angle v0 v1 ax = 180
    · rw [if_pos h]
      norm_num
    · rw [if_neg h]
      have hm := raw_angle_mem v0 v1 ax
      exact ⟨le_of_lt hm.1, lt_of_le_of_ne hm.2 h⟩

/-- C6 counterexample: antisymmetry of the signed angle fails for the
antiparallel unit vectors `(1,0,0)` and `(-1,0,0)` about the unit axis
`(0,1,0)`: both orders return `-180`, and `-180 ≠ -(-180)`. -/
theorem signed_angle_antisymm_cex :
    signed_angle_about_axis (1, 0, 0) (-1, 0, 0) (0, 1, 0) = -180 ∧
    signed_angle_about_axis (-1, 0, 0) (1, 0, 0) (0, 1, 0) = -180 ∧
    signed_angle_about_axis (1, 0, 0) (-1, 0, 0) (0, 1, 0) ≠
      -signed_angle_about_axis (-1, 0, 0) (1, 0, 0) (0, 1, 0) := by
  refine ⟨signed_angle_e1_neg_e1, signed_angle_neg_e1_e1, ?_⟩
  rw [signed_angle_e1_neg_e1, signed_angle_neg_e1_e1]
  norm_num

/-- C6 (amended): for all vectors `a`, `b` and axis, whenever the signed
angle from `a` to `b` is not the wrapped endpoint `-180`, swapping the
first two arguments negates the result exactly. -/
theorem signed_angle_antisymm (a b ax : Vec3)
    (h : signed_angle_about_axis a b ax ≠ -180) :
    signed_angle_about_axis a b ax = -signed_angle_about_axis b a ax := by
  have hraw : raw_angle a b ax ≠ 180 := by
    intro h180
    apply h
    simp only [signed_angle_about_axis]
    rw [if_pos h180]
  have hth : atan2 (angle_s a b ax) (angle_c a b) ≠ Real.pi :=
    fun hp => hraw ((raw_angle_eq_180_iff a b ax).mpr hp)
  have hswap : raw_angle b a ax = -raw_angle a b ax := by
    unfold raw_angle
    rw [angle_s_swap, angle_c_swap, atan2_neg_left hth, degrees_neg]
  have hne : raw_angle b a ax ≠ 180 := by
    rw [hswap]
    intro hh
    have h180 : raw_angle a b ax = -180 := by linarith
    exact absurd h180 (ne_of_gt (raw_angle_mem a b ax).1)
  simp only [signed_angle_about_axis]
  rw [if_neg hraw, if_neg hne, hswap, neg_neg]

/-- C6 witness: the amended antisymmetry at the concrete unit vectors
`(1,0,0)`, `(0,1,0)` about the unit axis `(0,0,1)`, where the angle is
`90` and the hypothesis holds. -/
theorem signed_angle_antisymm_wit :
    signed_angle_about_axis (1, 0, 0) (0, 1, 0) (0, 0, 1) =
      -signed_angle_about_axis (0, 1, 0) (1, 0, 0) (0, 0, 1) :=
  signed_angle_antisymm (1, 0, 0) (0, 1, 0) (0, 0, 1)
    (by rw [signed_angle_e1_e2]; norm_num)

/-- C5: if `recalibrate` succeeds on a sensor reading `r`, an immediately
following `get_delta` whose sensor read returns the same reading `r`
yields an angle of exactly `0`. -/
theorem recalibrate_then_get_delta_zero (st : AngleTracker) (r : Vec3)
    (reads1 reads2 : ℕ → Option Vec3)
    (h1 : safe_read3 reads1 = some r) (h2 : safe_read3 reads2 = some r) :
    (st.recalibrate reads1).1 = true ∧
    ((st.recalibrate reads1).2.get_delta reads2).1 = some 0 := by
  rw [recalibrate_success h1]
  refine ⟨rfl, ?_⟩
  rw [get_delta_success h2]
  simp only []
  rw [signed_angle_norm_self]

/-- C5 witness: recalibrating on the concrete reading `(0,0,1)`, then
reading the same sample, returns delta `0`. -/
theorem recalibrate_then_get_delta_zero_wit :
    (AngleTracker.recalibrate ⟨(0, 1, 0), "PITCH", (0, 0, 1), 0, 1500⟩
      (fun _ => some (0, 0, 1))).1 = true ∧
    ((AngleTracker.recalibrate ⟨(0, 1, 0), "PITCH", (0, 0, 1), 0, 1500⟩
      (fun _ => some (0, 0, 1))).2.get_delta (fun _ => some (0, 0, 1))).1 =
      some 0 :=
  recalibrate_then_get_delta_zero _ (0, 0, 1) _ _ rfl rfl

/-- C9: normalization is total — a zero-magnitude vector is mapped to the
zero vector, no division by zero occurs, and the signed-angle computation
on such a degenerate input proceeds and returns `0`. -/
theorem vec_norm_total_degenerate (v v1 ax : Vec3) (h : vec_mag v = 0) :
    vec_norm v = (0, 0, 0) ∧
    signed_angle_about_axis v v1 ax = 0 ∧
    signed_angle_about_axis v1 v ax = 0 :=
  ⟨vec_norm_of_mag_zero h, signed_angle_left_degenerate v1 ax h,
    signed_angle_right_degenerate v1 ax h⟩

/-- C9 witness: the zero vector normalizes to the zero vector and the
signed angle against the concrete sample `(1,2,3)` about axis `(0,1,0)`
is `0` in both argument orders. -/
theorem vec_norm_total_degenerate_wit :
    vec_norm (0, 0, 0) = (0, 0, 0) ∧
    signed_angle_about_axis (0, 0, 0) (1, 2, 3) (0, 1, 0) = 0 ∧
    signed_angle_about_axis (1, 2, 3) (0, 0, 0) (0, 1, 0) = 0 :=
  vec_norm_total_degenerate (0, 0, 0) (1, 2, 3) (0, 1, 0) vec_mag_zero

/-- C3: `get_delta` returns `none` exactly when all three bounded retry
attempts of the sensor read fail, and in that case the whole tracker
state (including `last_delta`) is returned unchanged. -/
theorem get_delta_unavailable_iff (st : AngleTracker)
    (reads : ℕ → Option Vec3) :
    ((st.get_delta reads).1 = none ↔ ∀ i, i < 3 → reads i = none) ∧
    ((st.get_delta reads).1 = none → st.get_delta reads = (none, st)) := by
  constructor
  · constructor
    · intro h
      cases hs : safe_read3 reads with
      | none => exact (safe_read3_eq_none_iff reads).mp hs
      | some g =>
        rw [get_delta_success hs] at h
        exact Option.noConfusion h
    · intro h
      rw [get_delta_fail ((safe_read3_eq_none_iff reads).mpr h)]
  · intro h
    cases hs : safe_read3 reads with
    | none => exact get_delta_fail hs
    | some g =>
      rw [get_delta_success hs] at h
      exact Option.noConfusion h

/-- C4: if `recalibrate` exhausts its three bounded retries without a
successful sensor read, it returns failure and the entire prior tracker
state (reference, last delta, axis, mode) is unchanged. -/
theorem recalibrate_exhausted_state_unchanged (st : AngleTracker)
    (reads : ℕ → Option Vec3) (h : ∀ i, i < 3 → reads i = none) :
    st.recalibrate reads = (false, st) :=
  recalibrate_fail ((safe_read3_eq_none_iff reads).mpr h)

/-- C4 witness: a concrete tracker with an always-failing sensor comes
back from `recalibrate` as `(false, the same state)`. -/
theorem recalibrate_exhausted_state_unchanged_wit :
    AngleTracker.recalibrate ⟨(1, 0, 0), "ROLL", (0, 0, 1), 42, 2000⟩
      (fun _ => none) = (false, ⟨(1, 0, 0), "ROLL", (0, 0, 1), 42, 2000⟩) :=
  recalibrate_exhausted_state_unchanged _ _ (fun _ _ => rfl)

/-- C10: immediately after construction the reference vector is the unit
Z vector and `last_delta` is `0`; a failed startup calibration leaves
that state in place, and `get_delta` and `get_last_delta` then still
return angles measured relative to the `+Z` default reference. -/
theorem init_default_reference (mode : String) (delay : ℕ) :
    (AngleTracker.init mode delay).g_ref = (0, 0, 1) ∧
    (AngleTracker.init mode delay).last_delta = 0 ∧
    (AngleTracker.init mode delay).get_last_delta = 0 ∧
    (∀ reads, (∀ i, i < 3 → reads i = none) →
      (AngleTracker.init mode delay).recalibrate reads =
        (false, AngleTracker.init mode delay)) ∧
    (∀ reads g, safe_read3 reads = some g →
      ((AngleTracker.init mode delay).get_delta reads).1 =
        some (signed_angle_about_axis (0, 0, 1) g
          (AngleTracker.init mode delay).axis)) := by
  refine ⟨rfl, rfl, rfl, ?_, ?_⟩
  · intro reads h
    exact recalibrate_fail ((safe_read3_eq_none_iff reads).mpr h)
  · intro reads g h
    rw [get_delta_success h]
    rfl

/-- C2: for every received DNS datagram of length at least 12 bytes, the
outgoing packet echoes the query's 2-byte transaction id, carries flags
`0x8180` (standard no-error response), echoes the question count, has
answer count 1 and authority/additional counts 0, copies the question
section byte-for-byte, and ends with exactly one answer record: a
compression pointer to the question name, type A, class IN, TTL 60,
data length 4 and the configured answer address. -/
theorem dns_response_wire (data ip_bytes : List ℕ) (h : 12 ≤ data.length) :
    dns_response data ip_bytes = some (dns_payload data ip_bytes) ∧
    (dns_payload data ip_bytes).take 2 = data.take 2 ∧
    ((dns_payload data ip_bytes).drop 2).take 2 = [0x81, 0x80] ∧
    ((dns_payload data ip_bytes).drop 4).take 2 = (data.drop 4).take 2 ∧
    ((dns_payload data ip_bytes).drop 6).take 2 = [0x00, 0x01] ∧
    ((dns_payload data ip_bytes).drop 8).take 4 = [0x00, 0x00, 0x00, 0x00] ∧
    ((dns_payload data ip_bytes).drop 12).take (data.length - 12) =
      data.drop 12 ∧
    (dns_payload data ip_bytes).drop data.length =
      [0xC0, 0x0C] ++ [0x00, 0x01] ++ [0x00, 0x01] ++
        [0x00, 0x00, 0x00, 0x3C] ++ [0x00, 0x04] ++ ip_bytes ∧
    (dns_payload data ip_bytes).length = data.length + 12 + ip_bytes.length := by
  have ht : (data.take 2).length = 2 := by
    rw [List.length_take]
    omega
  have hq : ((data.drop 4).take 2).length = 2 := by
    rw [List.length_take, List.length_drop]
    omega
  have hbody : (data.drop 12).length = data.length - 12 := List.length_drop 12 data
  have hassoc : dns_payload data ip_bytes =
      data.take 2 ++ ([0x81, 0x80] ++ ((data.drop 4).take 2 ++ ([0x00, 0x01] ++
        ([0x00, 0x00] ++ ([0x00, 0x00] ++
          (data.drop 12 ++ dns_answer ip_bytes)))))) := by
    simp [dns_payload, List.append_assoc]
  have d2 : (dns_payload data ip_bytes).drop 2 =
      [0x81, 0x80] ++ ((data.drop 4).take 2 ++ ([0x00, 0x01] ++
        ([0x00, 0x00] ++ ([0x00, 0x00] ++
          (data.drop 12 ++ dns_answer ip_bytes))))) := by
    rw [hassoc]
    exact List.drop_left' ht
  have d4 : (dns_payload data ip_bytes).drop 4 =
      (data.drop 4).take 2 ++ ([0x00, 0x01] ++ ([0x00, 0x00] ++
        ([0x00, 0x00] ++ (data.drop 12 ++ dns_answer ip_bytes)))) := by
    rw [show (4 : ℕ) = 2 + 2 from rfl, ← List.drop_drop, d2]
    exact List.drop_left' rfl
  have d6 : (dns_payload data ip_bytes).drop 6 =
      [0x00, 0x01] ++ ([0x00, 0x00] ++ ([0x00, 0x00] ++
        (data.drop 12 ++ dns_answer ip_bytes))) := by
    rw [show (6 : ℕ) = 4 + 2 from rfl, ← List.drop_drop, d4]
    exact List.drop_left' hq
  have d8 : (dns_payload data ip_bytes).drop 8 =
      [0x00, 0x00, 0x00, 0x00] ++ (data.drop 12 ++ dns_answer ip_bytes) := by
    rw [show (8 : ℕ) = 6 + 2 from rfl, ← List.drop_drop, d6]
    exact List.drop_left' rfl
  have d12 : (dns_payload data ip_bytes).drop 12 =
      data.drop 12 ++ dns_answer ip_bytes := by
    rw [show (12 : ℕ) = 8 + 4 from rfl, ← List.drop_drop, d8]
    exact List.drop_left' rfl
  refine ⟨?_, ?_, ?_, ?_, ?_, ?_, ?_, ?_, ?_⟩
  · unfold dns_response
    rw [if_neg (by omega)]
  · rw [hassoc]
    exact List.take_left' ht
  · rw [d2]
    exact List.take_left' rfl
  · rw [d4]
    exact List.take_left' hq
  · rw [d6]
    exact List.take_left' rfl
  · rw [d8]
    exact List.take_left' rfl
  · rw [d12]
    exact List.take_left' hbody
  · rw [show data.length = 12 + (data.length - 12) by omega, ← List.drop_drop,
      d12, List.drop_left' hbody]
    rfl
  · simp [dns_payload, dns_answer, List.length_append, List.length_take,
      List.length_drop]
    omega

/-- C2 witness: the 12-byte query with transaction id `0x1234` gets a
response. -/
theorem dns_response_wire_wit :
    (dns_response [0x12, 0x34, 1, 0, 0, 1, 0, 0, 0, 0, 0, 0]
      [192, 168, 4, 1]).isSome = true := by
  obtain ⟨he, -⟩ := dns_response_wire
    [0x12, 0x34, 1, 0, 0, 1, 0, 0, 0, 0, 0, 0] [192, 168, 4, 1] (by decide)
  rw [he]
  rfl

/-- C8: a received DNS datagram shorter than 12 bytes (the fixed DNS
header size) produces no outbound packet. -/
theorem dns_short_datagram_dropped (data ip_bytes : List ℕ)
    (h : data.length < 12) : dns_response data ip_bytes = none := by
  unfold dns_response
  rw [if_pos h]

/-- C8 witness: a concrete 3-byte datagram is silently discarded. -/
theorem dns_short_datagram_dropped_wit :
    dns_response [0, 1, 2] [192, 168, 4, 1] = none :=
  dns_short_datagram_dropped _ _ (by decide)

/-- C7: a `GET /generate_204` or `GET /gen_204` request is routed to
status 204 and the writer emits zero body bytes after the header block;
more generally `send_response` with status 204 never writes body
bytes. -/
theorem generate_204_no_body (method path : String) (delta : Option ℝ)
    (fmt : ℝ → String) (recal_ok : Bool) (index_html : String)
    (hm : method = "GET")
    (hp : path = "/generate_204" ∨ path = "/gen_204") :
    (route method path delta fmt recal_ok index_html).1 = 204 ∧
    (send_response (route method path delta fmt recal_ok index_html).1
      (route method path delta fmt recal_ok index_html).2.1
      (route method path delta fmt recal_ok index_html).2.2).2 = "" ∧
    (∀ ctype body, (send_response 204 ctype body).2 = "") := by
  have hr : route method path delta fmt recal_ok index_html =
      (204, "text/plain; charset=utf-8", "") := by
    unfold route
    rw [if_pos ⟨hm, hp⟩]
  refine ⟨by rw [hr], ?_, ?_⟩
  · rw [hr]
    simp [send_response]
  · intro ctype body
    simp [send_response]

/-- C7 witness: the concrete request `GET /generate_204` gets status 204
and no body bytes. -/
theorem generate_204_no_body_wit :
    (route "GET" "/generate_204" none (fun _ => "") false "").1 = 204 ∧
    (send_response (route "GET" "/generate_204" none (fun _ => "") false "").1
      (route "GET" "/generate_204" none (fun _ => "") false "").2.1
      (route "GET" "/generate_204" none (fun _ => "") false "").2.2).2 = "" ∧
    (∀ ctype body, (send_response 204 ctype body).2 = "") :=
  generate_204_no_body "GET" "/generate_204" none (fun _ => "") false ""
    rfl (Or.inl rfl)

end SharpenerGyro
